import Mathlib

/-!
Shallow embedding of `packages/cli/src/commands/pull.ts` (the `vercel pull`
command): argument parsing, link resolution (`ensureLink`), the four-way
environment-file fan-out (`pullAllEnvFiles`) with its `||`-chain result
aggregation, and the top-level orchestrator (`main`).

External collaborators (`getArgs`, `getLinkedProject`, `setupAndLink`,
`envPull`, `writeProjectSettings`) are modelled as oracle inputs; the
observable side effects of a run are recorded in an event trace.
-/

namespace Pull

/-- Deployment targets, from `ProjectEnvTarget` in `types.ts`. -/
inductive ProjectEnvTarget where
  | development
  | preview
  | production
deriving DecidableEq, Repr

/-- Membership kind of an organization (`org.type` is compared against
the literal string `team` in the source; anything else is personal). -/
inductive OrgType where
  | team
  | user
deriving DecidableEq, Repr

/-- The slice of `Org` that `pull.ts` reads: `org.id` and `org.type`. -/
structure Org where
  id : String
  type : OrgType
deriving DecidableEq, Repr

/-- The slice of `Project` that `pull.ts` passes around: its identity. -/
structure Project where
  id : String
deriving DecidableEq, Repr

/-- Shallow model of Node `path.join` on a list of segments: empty
segments are dropped and the rest are joined with `/`; an all-empty call
yields `.`.  (`.`/`..` normalization is not modelled; the command only
joins plain segments.) -/
def pathJoin (parts : List String) : String :=
  let ps := parts.filter (fun s => s ≠ "")
  if ps = [] then "." else String.intercalate "/" ps

/-- Result of the link-cache lookup (`getLinkedProject`) and of the
interactive setup collaborator (`setupAndLink`): `linked`, `not_linked`,
or `error` with an exit code. -/
inductive LinkStatus where
  | linked (org : Org) (project : Project)
  | not_linked
  | error (exitCode : Int)
deriving DecidableEq, Repr

/-- What `ensureLink` returns to `main`: either a resolved
`{ org, project }` pair or a numeric exit code. -/
inductive EnsureLinkResult where
  | link (org : Org) (project : Project)
  | exit (code : Int)
deriving DecidableEq, Repr

/-- `ensureLink(client, cwd, yes)` from `pull.ts`, as a function of the
two collaborator outcomes: the link-cache lookup result and the result
`setupAndLink` would return if invoked.  The `Bool` component records
whether `setupAndLink` was actually invoked. -/
def ensureLink (cacheResult setupResult : LinkStatus) :
    EnsureLinkResult × Bool :=
  match cacheResult with
  | LinkStatus.not_linked =>
      -- link.status === 'not_linked': invoke setupAndLink
      match setupResult with
      | LinkStatus.not_linked => (EnsureLinkResult.exit 0, true)
      | LinkStatus.error c => (EnsureLinkResult.exit c, true)
      | LinkStatus.linked o p => (EnsureLinkResult.link o p, true)
  | LinkStatus.error c => (EnsureLinkResult.exit c, false)
  | LinkStatus.linked o p => (EnsureLinkResult.link o p, false)

/-- One unit of fan-out work: a target and the candidate destination
paths handed to `envPull`. -/
structure SyncTask where
  target : ProjectEnvTarget
  dests : List String
deriving DecidableEq, Repr

/-- The four sync tasks constructed unconditionally by
`pullAllEnvFiles`, in declaration order: deprecated development
location, development, preview, production. -/
def pullTasks (envFileRoot cwd : String) : List SyncTask :=
  [ { target := ProjectEnvTarget.development
      dests := [pathJoin [cwd, envFileRoot]] },
    { target := ProjectEnvTarget.development
      dests := [pathJoin [cwd, ".vercel", envFileRoot ++ ".development.local"]] },
    { target := ProjectEnvTarget.preview
      dests := [pathJoin [cwd, ".vercel", envFileRoot ++ ".preview.local"]] },
    { target := ProjectEnvTarget.production
      dests := [pathJoin [cwd, ".vercel", envFileRoot ++ ".production.local"]] } ]

/-- JavaScript `a || b` on integer result codes: `a` when truthy
(nonzero), else `b`. -/
def jsOr (a b : Int) : Int := if a ≠ 0 then a else b

/-- The result aggregation in `pullAllEnvFiles`:
`dep || dev || preview || prod || 0`. -/
def aggregate (dep dev preview prod : Int) : Int :=
  jsOr dep (jsOr dev (jsOr preview (jsOr prod 0)))

/-- The aggregate produced by `pullAllEnvFiles` for a given `envPull`
oracle: the codes of the four tasks, merged by `aggregate`. -/
def pullAllEnvFiles (envFileRoot cwd : String) (envPull : SyncTask → Int) :
    Int :=
  match pullTasks envFileRoot cwd with
  | [t1, t2, t3, t4] => aggregate (envPull t1) (envPull t2) (envPull t3) (envPull t4)
  | _ => 0

/-- The slice of the parsed argv that `main` reads: the positional path
`_[1]`, `--help`, `--yes`, and `--env`. -/
structure Argv where
  pos1 : Option String
  help : Bool
  yes : Bool
  env : Option String
deriving DecidableEq, Repr

/-- Outcome of the `getArgs` collaborator: a parsed argv, or a thrown
error. -/
inductive ParseOutcome where
  | ok (argv : Argv)
  | err
deriving DecidableEq, Repr

/-- Observable side effects of a run, in the order they occur. -/
inductive Event where
  | printedHelp
  | handledError
  | setTeam (team : Option String)
  | dispatchSync (task : SyncTask)
  | wroteSettings (cwd : String) (projectId : String) (orgId : String)
  | printedSuccess
deriving DecidableEq, Repr

/-- `parseArgs` from `pull.ts`: on `--help` print usage and return `2`;
on a `getArgs` throw, call `handleError` and return `1`; otherwise hand
the argv through. -/
def parseArgs (p : ParseOutcome) : (Int ⊕ Argv) × List Event :=
  match p with
  | ParseOutcome.ok argv =>
      if argv.help then (Sum.inl 2, [Event.printedHelp])
      else (Sum.inr argv, [])
  | ParseOutcome.err => (Sum.inl 1, [Event.handledError])

/-- `argv._[1] || process.cwd()`: the positional path when present and
truthy (nonempty), else the process working directory. -/
def resolveCwd (pos1 : Option String) (processCwd : String) : String :=
  match pos1 with
  | some s => if s = "" then processCwd else s
  | none => processCwd

/-- `argv['--env'] ?? '.env'`: nullish coalescing, so an explicitly
supplied empty string is kept. -/
def resolveEnvRoot (envArg : Option String) : String :=
  envArg.getD ".env"

/-- The collaborator outcomes a run of `main` consumes. -/
structure MainInputs where
  parse : ParseOutcome
  processCwd : String
  cacheResult : LinkStatus
  setupResult : LinkStatus
  envPull : SyncTask → Int

/-- The orchestrator `main` from `pull.ts`: parse args, resolve the
link, set the client team context, fan out the four env pulls, and
persist the project settings on full success.  Returns the exit code
and the event trace. -/
def main (inp : MainInputs) : Int × List Event :=
  match parseArgs inp.parse with
  | (Sum.inl code, evs) => (code, evs)
  | (Sum.inr argv, evs) =>
      let cwd := resolveCwd argv.pos1 inp.processCwd
      let env := resolveEnvRoot argv.env
      match ensureLink inp.cacheResult inp.setupResult with
      | (EnsureLinkResult.exit code, _) => (code, evs)
      | (EnsureLinkResult.link org project, _) =>
          let team := if org.type = OrgType.team then some org.id else none
          let tasks := pullTasks env cwd
          let syncEvs := tasks.map Event.dispatchSync
          let code := pullAllEnvFiles env cwd inp.envPull
          if code ≠ 0 then
            (code, evs ++ Event.setTeam team :: syncEvs)
          else
            (0, evs ++ Event.setTeam team :: syncEvs ++
              [Event.wroteSettings cwd project.id org.id, Event.printedSuccess])

/-- Whether an event is the settings write. -/
def isWroteSettings : Event → Bool
  | Event.wroteSettings _ _ _ => true
  | _ => false

/-- Whether an event dispatches a sync task. -/
def isDispatchSync : Event → Bool
  | Event.dispatchSync _ => true
  | _ => false

/-- Whether an event mutates the shared team context. -/
def isSetTeam : Event → Bool
  | Event.setTeam _ => true
  | _ => false

/-- The four destination paths of one run, in task declaration order. -/
def pullDestPaths (envFileRoot cwd : String) : List String :=
  ((pullTasks envFileRoot cwd).map SyncTask.dests).flatten

/-- Spec-side description of the aggregation policy: the first nonzero
code in order, `0` when all are zero. -/
def firstNonzero : List Int → Int
  | [] => 0
  | x :: xs => if x ≠ 0 then x else firstNonzero xs

/-- The working directory a run of `main` resolves from its argv. -/
def runCwd (inp : MainInputs) (argv : Argv) : String :=
  resolveCwd argv.pos1 inp.processCwd

/-- The env-file root a run of `main` resolves from its argv. -/
def runEnvRoot (argv : Argv) : String :=
  resolveEnvRoot argv.env

/-- The aggregate sync result a run of `main` obtains from the fan-out. -/
def runAggregate (inp : MainInputs) (argv : Argv) : Int :=
  pullAllEnvFiles (runEnvRoot argv) (runCwd inp argv) inp.envPull

/-- The team context `main` stores on the shared client:
`org.type === 'team' ? org.id : undefined`. -/
def teamOf (o : Org) : Option String :=
  if o.type = OrgType.team then some o.id else none

/-! ### Helper lemmas -/

theorem append_right_ne_empty (a b : String) (hb : b ≠ "") : a ++ b ≠ "" := by
  intro h
  apply hb
  have hd := congrArg String.data h
  simp [String.data_append] at hd
  exact String.ext hd.2

theorem pathJoin_two (w r : String) (hw : w ≠ "") (hr : r ≠ "") :
    pathJoin [w, r] = w ++ "/" ++ r := by
  simp [pathJoin, hw, hr, String.intercalate, String.intercalate.go]

theorem pathJoin_two_right_empty (w : String) (hw : w ≠ "") :
    pathJoin [w, ""] = w := by
  simp [pathJoin, hw, String.intercalate, String.intercalate.go]

theorem pathJoin_vercel (w s : String) (hw : w ≠ "") (hs : s ≠ "") :
    pathJoin [w, ".vercel", s] = w ++ "/.vercel/" ++ s := by
  simp [pathJoin, hw, hs, String.intercalate, String.intercalate.go]
  simp [String.append_assoc]

theorem pathJoin_vercel_empty (s : String) (hs : s ≠ "") :
    pathJoin ["", ".vercel", s] = ".vercel/" ++ s := by
  simp [pathJoin, hs, String.intercalate, String.intercalate.go]

theorem pathJoin_two_length (w r : String) :
    (pathJoin [w, r]).length =
      if w = "" then (if r = "" then 1 else r.length)
      else (if r = "" then w.length else w.length + 1 + r.length) := by
  by_cases hw : w = "" <;> by_cases hr : r = "" <;>
    simp [pathJoin, hw, hr, String.intercalate, String.intercalate.go,
      String.length_append] <;> decide

theorem pathJoin_vercel_length (w s : String) (hs : s ≠ "") :
    (pathJoin [w, ".vercel", s]).length =
      (if w = "" then 8 else w.length + 9) + s.length := by
  by_cases hw : w = ""
  · rw [hw, pathJoin_vercel_empty _ hs, String.length_append, if_pos rfl]
    have h8 : (".vercel/" : String).length = 8 := by decide
    omega
  · rw [pathJoin_vercel _ _ hw hs, String.length_append, String.length_append,
      if_neg hw]
    have h9 : ("/.vercel/" : String).length = 9 := by decide
    omega

theorem length_append_str (r s : String) :
    (r ++ s).length = r.length + s.length := String.length_append r s

/-- Unfolding of `main` along the success path of link resolution. -/
theorem main_linked (inp : MainInputs) (argv : Argv) (o : Org) (p : Project)
    (b : Bool)
    (hp : inp.parse = ParseOutcome.ok argv) (hh : argv.help = false)
    (hl : ensureLink inp.cacheResult inp.setupResult =
      (EnsureLinkResult.link o p, b)) :
    main inp =
      (if runAggregate inp argv ≠ 0 then
        (runAggregate inp argv,
          Event.setTeam (teamOf o) ::
            (pullTasks (runEnvRoot argv) (runCwd inp argv)).map
              Event.dispatchSync)
      else
        (0,
          Event.setTeam (teamOf o) ::
            (pullTasks (runEnvRoot argv) (runCwd inp argv)).map
              Event.dispatchSync ++
            [Event.wroteSettings (runCwd inp argv) p.id o.id,
              Event.printedSuccess])) := by
  simp only [main, hp, parseArgs, hh, Bool.false_eq_true, if_false, hl,
    runAggregate, runEnvRoot, runCwd, teamOf, List.nil_append]

/-! ### Concrete fixtures used by the witnesses -/

def argvPlain : Argv :=
  { pos1 := none, help := false, yes := false, env := none }

def argvHelp : Argv :=
  { pos1 := none, help := true, yes := false, env := none }

def argvEnvEmpty : Argv :=
  { pos1 := some "/repo", help := false, yes := false, env := some "" }

def orgTeam : Org := { id := "team_1", type := OrgType.team }

def projOne : Project := { id := "prj_1" }

def inpErr : MainInputs :=
  { parse := ParseOutcome.err, processCwd := "/repo",
    cacheResult := LinkStatus.not_linked, setupResult := LinkStatus.not_linked,
    envPull := fun _ => 0 }

def inpHelp : MainInputs :=
  { parse := ParseOutcome.ok argvHelp, processCwd := "/repo",
    cacheResult := LinkStatus.not_linked, setupResult := LinkStatus.not_linked,
    envPull := fun _ => 0 }

def inpAbort : MainInputs :=
  { parse := ParseOutcome.ok argvPlain, processCwd := "/repo",
    cacheResult := LinkStatus.not_linked, setupResult := LinkStatus.not_linked,
    envPull := fun _ => 0 }

def inpCacheError : MainInputs :=
  { parse := ParseOutcome.ok argvPlain, processCwd := "/repo",
    cacheResult := LinkStatus.error 7, setupResult := LinkStatus.not_linked,
    envPull := fun _ => 0 }

def inpLinkedOk : MainInputs :=
  { parse := ParseOutcome.ok argvPlain, processCwd := "/repo",
    cacheResult := LinkStatus.linked orgTeam projOne,
    setupResult := LinkStatus.not_linked,
    envPull := fun _ => 0 }

/-! ### Claims -/

/-- Claim C1: the result aggregation over the four sync result codes, in
the fixed order (legacy-development, development, preview, production),
returns `0` iff all four codes are `0`, and otherwise the first nonzero
code in that order, for every vector of four integer result codes. -/
theorem aggregate_zero_iff_all_zero (a b c d : Int) :
    aggregate a b c d = firstNonzero [a, b, c, d] ∧
    (aggregate a b c d = 0 ↔ a = 0 ∧ b = 0 ∧ c = 0 ∧ d = 0) := by
  refine ⟨rfl, ?_⟩
  simp only [aggregate, jsOr]
  by_cases ha : a = 0 <;> by_cases hb : b = 0 <;> by_cases hc : c = 0 <;>
    by_cases hd : d = 0 <;> simp [ha, hb, hc, hd]

/-- Claim C4: when the link cache lookup reports the directory as already
linked, `ensureLink` returns that link immediately and the interactive
setup collaborator is never invoked (invocation flag `false`). -/
theorem ensureLink_linked_skips_setup (o : Org) (p : Project)
    (setupResult : LinkStatus) :
    ensureLink (LinkStatus.linked o p) setupResult =
      (EnsureLinkResult.link o p, false) := rfl

/-- Claim C5: whenever the link cache lookup or the interactive setup
collaborator reports `error` with some exit code, `ensureLink` returns
that exact code, and `main` terminates with it unchanged. -/
theorem error_code_passthrough (c : Int) (s : LinkStatus)
    (inp : MainInputs) (argv : Argv)
    (hp : inp.parse = ParseOutcome.ok argv) (hh : argv.help = false) :
    ensureLink (LinkStatus.error c) s = (EnsureLinkResult.exit c, false) ∧
    ensureLink LinkStatus.not_linked (LinkStatus.error c) =
      (EnsureLinkResult.exit c, true) ∧
    (inp.cacheResult = LinkStatus.error c → main inp = (c, [])) ∧
    (inp.cacheResult = LinkStatus.not_linked →
      inp.setupResult = LinkStatus.error c → main inp = (c, [])) := by
  refine ⟨rfl, rfl, ?_, ?_⟩
  · intro hc
    simp only [main, hp, parseArgs, hh, Bool.false_eq_true, if_false, hc,
      ensureLink]
  · intro hc hs
    simp only [main, hp, parseArgs, hh, Bool.false_eq_true, if_false, hc, hs,
      ensureLink]

theorem error_code_passthrough_witness :
    ensureLink (LinkStatus.error 7) LinkStatus.not_linked =
      (EnsureLinkResult.exit 7, false) ∧
    ensureLink LinkStatus.not_linked (LinkStatus.error 7) =
      (EnsureLinkResult.exit 7, true) ∧
    (inpCacheError.cacheResult = LinkStatus.error 7 →
      main inpCacheError = (7, [])) ∧
    (inpCacheError.cacheResult = LinkStatus.not_linked →
      inpCacheError.setupResult = LinkStatus.error 7 →
      main inpCacheError = (7, [])) :=
  error_code_passthrough 7 LinkStatus.not_linked inpCacheError argvPlain
    rfl rfl

/-- Claim C3: when the directory is not linked and interactive setup also
reports `not_linked` (user aborted), `main` exits with code `0`, no sync
task is dispatched, and no settings file is written. -/
theorem abort_exits_zero_no_side_effects (inp : MainInputs) (argv : Argv)
    (hp : inp.parse = ParseOutcome.ok argv) (hh : argv.help = false)
    (hc : inp.cacheResult = LinkStatus.not_linked)
    (hs : inp.setupResult = LinkStatus.not_linked) :
    (main inp).1 = 0 ∧
    (main inp).2.any isDispatchSync = false ∧
    (main inp).2.any isWroteSettings = false := by
  simp only [main, hp, parseArgs, hh, Bool.false_eq_true, if_false, hc, hs,
    ensureLink]
  simp

theorem abort_exits_zero_no_side_effects_witness :
    (main inpAbort).1 = 0 ∧
    (main inpAbort).2.any isDispatchSync = false ∧
    (main inpAbort).2.any isWroteSettings = false :=
  abort_exits_zero_no_side_effects inpAbort argvPlain rfl rfl rfl rfl

/-- Claim C9: argument parsing terminates the run with exit code `2` when
the help flag is present (after printing usage) and with exit code `1`
when parsing fails; in both cases link resolution, sync, and persistence
are never reached (the trace holds no team-context, sync, or settings
event). -/
theorem parse_terminal_exit_codes (inp : MainInputs) :
    (inp.parse = ParseOutcome.err →
      main inp = (1, [Event.handledError]) ∧
      (main inp).2.any isSetTeam = false ∧
      (main inp).2.any isDispatchSync = false ∧
      (main inp).2.any isWroteSettings = false) ∧
    (∀ argv, inp.parse = ParseOutcome.ok argv → argv.help = true →
      main inp = (2, [Event.printedHelp]) ∧
      (main inp).2.any isSetTeam = false ∧
      (main inp).2.any isDispatchSync = false ∧
      (main inp).2.any isWroteSettings = false) := by
  constructor
  · intro h
    simp [main, parseArgs, h, isSetTeam, isDispatchSync, isWroteSettings]
  · intro argv h hh
    simp [main, parseArgs, h, hh, isSetTeam, isDispatchSync, isWroteSettings]

theorem parse_terminal_exit_codes_witness :
    main inpErr = (1, [Event.handledError]) ∧
    main inpHelp = (2, [Event.printedHelp]) :=
  ⟨((parse_terminal_exit_codes inpErr).1 rfl).1,
    ((parse_terminal_exit_codes inpHelp).2 argvHelp rfl rfl).1⟩

/-- Claim C2: on a run whose link resolution succeeds, the settings
persister is invoked iff the aggregate of the four sync result codes is
`0`; when the aggregate is nonzero, `main` returns that nonzero code and
the settings file is not written. -/
theorem settings_written_iff_aggregate_zero (inp : MainInputs) (argv : Argv)
    (o : Org) (p : Project) (b : Bool)
    (hp : inp.parse = ParseOutcome.ok argv) (hh : argv.help = false)
    (hl : ensureLink inp.cacheResult inp.setupResult =
      (EnsureLinkResult.link o p, b)) :
    ((main inp).2.any isWroteSettings = true ↔ runAggregate inp argv = 0) ∧
    (runAggregate inp argv ≠ 0 →
      (main inp).1 = runAggregate inp argv ∧
      (main inp).2.any isWroteSettings = false) := by
  rw [main_linked inp argv o p b hp hh hl]
  by_cases hz : runAggregate inp argv = 0
  · simp [hz, pullTasks, isWroteSettings]
  · simp [hz, pullTasks, isWroteSettings]

theorem settings_written_iff_aggregate_zero_witness :
    ((main inpLinkedOk).2.any isWroteSettings = true ↔
      runAggregate inpLinkedOk argvPlain = 0) ∧
    (runAggregate inpLinkedOk argvPlain ≠ 0 →
      (main inpLinkedOk).1 = runAggregate inpLinkedOk argvPlain ∧
      (main inpLinkedOk).2.any isWroteSettings = false) :=
  settings_written_iff_aggregate_zero inpLinkedOk argvPlain orgTeam projOne
    false rfl rfl rfl

/-- Claim C7: on a run whose link resolution succeeds, the shared team
context is mutated exactly once — to the organization id when the
organization is a team and to `none` (cleared) when personal — and this
single mutation precedes every sync dispatch; no later event in the
trace mutates it. -/
theorem team_context_set_once_before_sync (inp : MainInputs) (argv : Argv)
    (o : Org) (p : Project) (b : Bool)
    (hp : inp.parse = ParseOutcome.ok argv) (hh : argv.help = false)
    (hl : ensureLink inp.cacheResult inp.setupResult =
      (EnsureLinkResult.link o p, b)) :
    (main inp).2.countP isSetTeam = 1 ∧
    ∃ tail,
      (main inp).2 =
        Event.setTeam (teamOf o) ::
          (pullTasks (runEnvRoot argv) (runCwd inp argv)).map
            Event.dispatchSync ++ tail ∧
      tail.any isSetTeam = false ∧
      tail.any isDispatchSync = false := by
  rw [main_linked inp argv o p b hp hh hl]
  by_cases hz : runAggregate inp argv = 0
  · rw [if_neg (not_not_intro hz)]
    refine ⟨?_, [Event.wroteSettings (runCwd inp argv) p.id o.id,
      Event.printedSuccess], rfl, ?_, ?_⟩
    · simp [pullTasks, isSetTeam]
    · simp [isSetTeam]
    · simp [isDispatchSync]
  · rw [if_pos hz]
    refine ⟨?_, [], by simp, rfl, rfl⟩
    simp [pullTasks, isSetTeam]

theorem team_context_set_once_before_sync_witness :
    (main inpLinkedOk).2.countP isSetTeam = 1 ∧
    ∃ tail,
      (main inpLinkedOk).2 =
        Event.setTeam (teamOf orgTeam) ::
          (pullTasks (runEnvRoot argvPlain)
            (runCwd inpLinkedOk argvPlain)).map Event.dispatchSync ++ tail ∧
      tail.any isSetTeam = false ∧
      tail.any isDispatchSync = false :=
  team_context_set_once_before_sync inpLinkedOk argvPlain orgTeam projOne
    false rfl rfl rfl

/-- Claim C6: for every envFileRoot and working directory (both
nonempty), the fan-out constructs exactly these four tasks,
unconditionally: Development to the legacy path `cwd/envFileRoot` (no
suffix, no `.vercel` subdirectory), Development to
`cwd/.vercel/envFileRoot.development.local`, Preview to
`cwd/.vercel/envFileRoot.preview.local`, and Production to
`cwd/.vercel/envFileRoot.production.local`; in particular with
`--env custom` the suffixed names become `custom.development.local` etc.
and the legacy path becomes `cwd/custom`. -/
theorem pullTasks_four_destinations (root cwd : String)
    (hw : cwd ≠ "") (hr : root ≠ "") :
    (pullTasks root cwd).length = 4 ∧
    (pullTasks root cwd).map SyncTask.target =
      [ProjectEnvTarget.development, ProjectEnvTarget.development,
        ProjectEnvTarget.preview, ProjectEnvTarget.production] ∧
    pullTasks root cwd =
      [ { target := ProjectEnvTarget.development
          dests := [cwd ++ "/" ++ root] },
        { target := ProjectEnvTarget.development
          dests := [cwd ++ "/.vercel/" ++ (root ++ ".development.local")] },
        { target := ProjectEnvTarget.preview
          dests := [cwd ++ "/.vercel/" ++ (root ++ ".preview.local")] },
        { target := ProjectEnvTarget.production
          dests := [cwd ++ "/.vercel/" ++ (root ++ ".production.local")] } ] ∧
    pullTasks "custom" cwd =
      [ { target := ProjectEnvTarget.development
          dests := [cwd ++ "/custom"] },
        { target := ProjectEnvTarget.development
          dests := [cwd ++ "/.vercel/custom.development.local"] },
        { target := ProjectEnvTarget.preview
          dests := [cwd ++ "/.vercel/custom.preview.local"] },
        { target := ProjectEnvTarget.production
          dests := [cwd ++ "/.vercel/custom.production.local"] } ] := by
  have h1 : root ++ ".development.local" ≠ "" :=
    append_right_ne_empty _ _ (by decide)
  have h2 : root ++ ".preview.local" ≠ "" :=
    append_right_ne_empty _ _ (by decide)
  have h3 : root ++ ".production.local" ≠ "" :=
    append_right_ne_empty _ _ (by decide)
  refine ⟨rfl, rfl, ?_, ?_⟩
  · rw [pullTasks, pathJoin_two cwd root hw hr, pathJoin_vercel cwd _ hw h1,
      pathJoin_vercel cwd _ hw h2, pathJoin_vercel cwd _ hw h3]
  · rw [pullTasks, pathJoin_two cwd "custom" hw (by decide),
      pathJoin_vercel cwd _ hw (by decide), pathJoin_vercel cwd _ hw (by decide),
      pathJoin_vercel cwd _ hw (by decide)]
    simp [String.append_assoc]

theorem pullTasks_four_destinations_witness :
    (pullTasks "custom" "/repo").length = 4 ∧
    (pullTasks "custom" "/repo").map SyncTask.target =
      [ProjectEnvTarget.development, ProjectEnvTarget.development,
        ProjectEnvTarget.preview, ProjectEnvTarget.production] ∧
    pullTasks "custom" "/repo" =
      [ { target := ProjectEnvTarget.development
          dests := ["/repo" ++ "/" ++ "custom"] },
        { target := ProjectEnvTarget.development
          dests := ["/repo" ++ "/.vercel/" ++ ("custom" ++ ".development.local")] },
        { target := ProjectEnvTarget.preview
          dests := ["/repo" ++ "/.vercel/" ++ ("custom" ++ ".preview.local")] },
        { target := ProjectEnvTarget.production
          dests := ["/repo" ++ "/.vercel/" ++ ("custom" ++ ".production.local")] } ] ∧
    pullTasks "custom" "/repo" =
      [ { target := ProjectEnvTarget.development
          dests := ["/repo" ++ "/custom"] },
        { target := ProjectEnvTarget.development
          dests := ["/repo" ++ "/.vercel/custom.development.local"] },
        { target := ProjectEnvTarget.preview
          dests := ["/repo" ++ "/.vercel/custom.preview.local"] },
        { target := ProjectEnvTarget.production
          dests := ["/repo" ++ "/.vercel/custom.production.local"] } ] :=
  pullTasks_four_destinations "custom" "/repo" (by decide) (by decide)

/-- Claim C10: the default env-file root `.env` is applied only when
`--env` is absent (nullish): with `--env` supplied as the empty string
the root is the empty string, the legacy destination is the working
directory itself, and the suffixed files are named `.development.local`,
`.preview.local`, and `.production.local`. -/
theorem env_empty_string_kept (cwd : String) (hw : cwd ≠ "") :
    resolveEnvRoot none = ".env" ∧
    (∀ s, resolveEnvRoot (some s) = s) ∧
    resolveEnvRoot (some "") = "" ∧
    pullTasks (resolveEnvRoot (some "")) cwd =
      [ { target := ProjectEnvTarget.development
          dests := [cwd] },
        { target := ProjectEnvTarget.development
          dests := [cwd ++ "/.vercel/.development.local"] },
        { target := ProjectEnvTarget.preview
          dests := [cwd ++ "/.vercel/.preview.local"] },
        { target := ProjectEnvTarget.production
          dests := [cwd ++ "/.vercel/.production.local"] } ] := by
  refine ⟨rfl, fun s => rfl, rfl, ?_⟩
  show pullTasks "" cwd = _
  rw [pullTasks, pathJoin_two_right_empty cwd hw]
  rw [show ("" ++ ".development.local" : String) = ".development.local" from rfl,
    show ("" ++ ".preview.local" : String) = ".preview.local" from rfl,
    show ("" ++ ".production.local" : String) = ".production.local" from rfl,
    pathJoin_vercel cwd _ hw (by decide), pathJoin_vercel cwd _ hw (by decide),
    pathJoin_vercel cwd _ hw (by decide)]
  simp [String.append_assoc]

theorem env_empty_string_kept_witness :
    resolveEnvRoot none = ".env" ∧
    (∀ s, resolveEnvRoot (some s) = s) ∧
    resolveEnvRoot (some "") = "" ∧
    pullTasks (resolveEnvRoot (some "")) "/repo" =
      [ { target := ProjectEnvTarget.development
          dests := ["/repo"] },
        { target := ProjectEnvTarget.development
          dests := ["/repo" ++ "/.vercel/.development.local"] },
        { target := ProjectEnvTarget.preview
          dests := ["/repo" ++ "/.vercel/.preview.local"] },
        { target := ProjectEnvTarget.production
          dests := ["/repo" ++ "/.vercel/.production.local"] } ] :=
  env_empty_string_kept "/repo" (by decide)

/-- Claim C8: for every envFileRoot string and working directory, the
four destination paths constructed by the fan-out (the legacy path and
the three `.vercel`-suffixed paths) are pairwise distinct. -/
theorem pullDestPaths_nodup (root cwd : String) :
    (pullDestPaths root cwd).Nodup := by
  have h1 : root ++ ".development.local" ≠ "" :=
    append_right_ne_empty _ _ (by decide)
  have h2 : root ++ ".preview.local" ≠ "" :=
    append_right_ne_empty _ _ (by decide)
  have h3 : root ++ ".production.local" ≠ "" :=
    append_right_ne_empty _ _ (by decide)
  have e1 : (".development.local" : String).length = 18 := by decide
  have e2 : (".preview.local" : String).length = 14 := by decide
  have e3 : (".production.local" : String).length = 17 := by decide
  have q12 : pathJoin [cwd, root] ≠
      pathJoin [cwd, ".vercel", root ++ ".development.local"] := by
    intro h
    have hl := congrArg String.length h
    rw [pathJoin_two_length, pathJoin_vercel_length _ _ h1,
      length_append_str, e1] at hl
    split_ifs at hl <;> omega
  have q13 : pathJoin [cwd, root] ≠
      pathJoin [cwd, ".vercel", root ++ ".preview.local"] := by
    intro h
    have hl := congrArg String.length h
    rw [pathJoin_two_length, pathJoin_vercel_length _ _ h2,
      length_append_str, e2] at hl
    split_ifs at hl <;> omega
  have q14 : pathJoin [cwd, root] ≠
      pathJoin [cwd, ".vercel", root ++ ".production.local"] := by
    intro h
    have hl := congrArg String.length h
    rw [pathJoin_two_length, pathJoin_vercel_length _ _ h3,
      length_append_str, e3] at hl
    split_ifs at hl <;> omega
  have q23 : pathJoin [cwd, ".vercel", root ++ ".development.local"] ≠
      pathJoin [cwd, ".vercel", root ++ ".preview.local"] := by
    intro h
    have hl := congrArg String.length h
    rw [pathJoin_vercel_length _ _ h1, pathJoin_vercel_length _ _ h2,
      length_append_str, length_append_str, e1, e2] at hl
    split_ifs at hl <;> omega
  have q24 : pathJoin [cwd, ".vercel", root ++ ".development.local"] ≠
      pathJoin [cwd, ".vercel", root ++ ".production.local"] := by
    intro h
    have hl := congrArg String.length h
    rw [pathJoin_vercel_length _ _ h1, pathJoin_vercel_length _ _ h3,
      length_append_str, length_append_str, e1, e3] at hl
    split_ifs at hl <;> omega
  have q34 : pathJoin [cwd, ".vercel", root ++ ".preview.local"] ≠
      pathJoin [cwd, ".vercel", root ++ ".production.local"] := by
    intro h
    have hl := congrArg String.length h
    rw [pathJoin_vercel_length _ _ h2, pathJoin_vercel_length _ _ h3,
      length_append_str, length_append_str, e2, e3] at hl
    split_ifs at hl <;> omega
  simp [pullDestPaths, pullTasks, List.nodup_cons, q12, q13, q14, q23, q24,
    q34]

end Pull
